import Mathlib

/-!
Verification of the configuration-resolution core of the `mabel` crate
(`src/config.rs`, `src/error.rs`).

The Rust code is shallowly embedded as pure Lean functions:

* process environment lookups, the home directory, filesystem preflight
  outcomes (`ensure_dir_exists` / `ensure_writable`), the external URL
  parser (`url::Url::parse`) and the external `f32` parser are packaged
  into a `World` record that `Config.load` consumes, so the embedded
  `load` is a pure function of the CLI input and that world;
* `PathBuf` values are plain strings with a Unix path-join model;
* `f32` is an abstract type parameter `F` (no claim here depends on
  floating-point arithmetic, only on which value is selected), with
  `World.float02` denoting the Rust literal `0.2_f32`;
* `std::io::Error` payloads carried inside error variants are not
  modelled (the oracle only reports success or failure of the probe).

The `Cli` record mirrors the fields of `crate::cli::Cli` exactly as they
are consumed by `Config::load`.
-/

namespace Mabel

/-- A parsed URL as produced by `url::Url::parse`.  The parser itself is
external to the crate, so it is kept abstract: `World.parseUrl` stands for
`Url::parse`, and a `Url` value just records the string it was parsed
from. -/
structure Url where
  raw : String
deriving DecidableEq, Repr

/-- The error taxonomy of `src/error.rs` (`MabelError`).  Payload types
that come from external crates (`std::io::Error`, `reqwest::Error`,
`url::ParseError`, parser errors, ...) are modelled as strings; the `Io`
variant's wrapped `source` error is not modelled at all, only the path it
carries. -/
inductive MabelError where
  | MissingEnv (key : String)
  | Config (msg : String)
  | Io (path : String)
  | VaultNotWritable (path : String)
  | TemplateMissing (path : String)
  | Http (url : String)
  | HttpStatus (url : String) (status : Nat) (body_snip : String)
  | Url (e : String)
  | Xml (context : String)
  | Json (e : String)
  | Yaml (e : String)
  | Chrono (e : String)
  | Template (e : String)
  | InvalidArxivId (input : String)
  | Extraction (reason : String)
  | GrobidMalformed (reason : String)
  | Guardrail (reason : String)
  | OpenAiApi (e : String)
deriving DecidableEq, Repr

/-- `LlmBackend` from `src/config.rs`: the tagged union of the two LLM
backend variants.  `F` is the abstract stand-in for `f32`. -/
inductive LlmBackend (F : Type) where
  | OpenAi (api_key : String) (model : String) (max_tokens : Nat) (temperature : F)
  | Ollama (host : Url) (model : String) (max_tokens : Nat) (temperature : F)
deriving DecidableEq, Repr

/-- `Mode` from `src/config.rs`: output style preset for the note. -/
inductive Mode where
  | Concise
  | Study
deriving DecidableEq, Repr

/-- `Config` from `src/config.rs`.  `PathBuf` fields are strings,
`http_timeout` is the number of seconds handed to
`Duration::from_secs`. -/
structure Config (F : Type) where
  vault_path : String
  vault_subdir : String
  copy_pdf_into_vault : Bool
  cache_dir : String
  overwrite_note : Bool
  llm : LlmBackend F
  grobid_url : Option Url
  http_timeout : Nat
  http_retries : Nat
  rate_limit_per_min : Nat
  template_path : String
  mode : Mode
deriving DecidableEq, Repr

/-- The fields of `crate::cli::Cli` exactly as `Config::load` consumes
them (the CLI parser itself is out of scope; its output is this plain
record of optional values and flags). -/
structure Cli where
  vault_path : Option String
  vault_subdir : Option String
  copy_pdf_into_vault : Bool
  cache_dir : Option String
  overwrite : Bool
  ollama : Bool
  ollama_host : Option String
  model : Option String
  openai_key : Option String
  grobid_url : Option String
  template : Option String
  mode : Option String
deriving DecidableEq, Repr

/-- The ambient world `Config::load` runs in: the process environment
(after the best-effort `dotenvy::dotenv()` merge), the home directory
(`dirs::home_dir()` / shellexpand's home lookup), oracles for the success
of the two filesystem preflight helpers, the external URL parser, the
external `f32` parser, and the value denoted by the literal `0.2_f32`. -/
structure World (F : Type) where
  env : String → Option String
  homeDir : Option String
  dirOk : String → Bool
  writableOk : String → Bool
  parseUrl : String → Except String Url
  parseF32 : String → Option F
  float02 : F

/-- `str::starts_with`, computed on the underlying character list (so
that concrete instances evaluate inside `decide` and `rfl` proofs). -/
def str_starts_with (s pre : String) : Bool :=
  pre.data.isPrefixOf s.data

/-- `str::ends_with`, computed on the underlying character list. -/
def str_ends_with (s suf : String) : Bool :=
  suf.data.isSuffixOf s.data

/-- `Path::is_absolute` on Unix: the path has a root. -/
def path_is_absolute (s : String) : Bool :=
  str_starts_with s "/"

/-- `PathBuf::join` on Unix: an absolute right operand replaces the left;
otherwise the components are concatenated with a separator when one is
needed. -/
def path_join (a b : String) : String :=
  if path_is_absolute b then b
  else if a.isEmpty then b
  else if str_ends_with a "/" then a ++ b
  else a ++ "/" ++ b

/-- `expand_path` from `src/config.rs`, i.e. `shellexpand::tilde`: a
leading `~` that is the whole path or is followed by `/` is replaced by
the home directory when one is known; everything else is returned
unchanged. -/
def expand_path (homeDir : Option String) (p : String) : String :=
  if str_starts_with p "~" then
    let rest := p.drop 1
    if rest.isEmpty || str_starts_with rest "/" then
      match homeDir with
      | some home => home ++ rest
      | none => p
    else p
  else p

/-- `ensure_dir_exists` from `src/config.rs`.  The filesystem effect
(create the directory chain if absent) is summarised by the world's
`dirOk` oracle: `true` means the call returned `Ok(())`. -/
def ensure_dir_exists {F : Type} (w : World F) (dir : String) : Bool :=
  w.dirOk dir

/-- `ensure_writable` from `src/config.rs`.  The write-then-delete probe
is summarised by the world's `writableOk` oracle: `true` means the call
returned `Ok(())`. -/
def ensure_writable {F : Type} (w : World F) (dir : String) : Bool :=
  w.writableOk dir

/-- `default_cache_dir` from `src/config.rs`:
`dirs::home_dir().unwrap_or(".")` joined with `".mabel"`. -/
def default_cache_dir (homeDir : Option String) : String :=
  path_join (homeDir.getD ".") ".mabel"

/-- `env_bool` from `src/config.rs`:
`env::var(key).ok().map(|v| matches!(v.as_str(), "1" | "true" | "TRUE" | "yes" | "on")).unwrap_or(default)`. -/
def env_bool (env : String → Option String) (key : String) (default : Bool) : Bool :=
  ((env key).map (fun v =>
    v = "1" || v = "true" || v = "TRUE" || v = "yes" || v = "on")).getD default

/-- `str::parse::<u32>` (`u32::from_str`): an optional leading `+`, then
one or more ASCII digits, rejecting overflow past `u32::MAX`. -/
def parse_u32 (s : String) : Option Nat :=
  let digits := if str_starts_with s "+" then s.drop 1 else s
  if digits.isEmpty || !(digits.data.all Char.isDigit) then none
  else
    let n := digits.data.foldl (fun acc c => acc * 10 + (c.toNat - 48)) 0
    if n < 4294967296 then some n else none

/-- `str::parse::<u64>`: like `parse_u32` with the `u64::MAX` bound. -/
def parse_u64 (s : String) : Option Nat :=
  let digits := if str_starts_with s "+" then s.drop 1 else s
  if digits.isEmpty || !(digits.data.all Char.isDigit) then none
  else
    let n := digits.data.foldl (fun acc c => acc * 10 + (c.toNat - 48)) 0
    if n < 18446744073709551616 then some n else none

/-- `env_u32` from `src/config.rs`:
`env::var(key).ok().and_then(|v| v.parse().ok()).unwrap_or(default)`. -/
def env_u32 (env : String → Option String) (key : String) (default : Nat) : Nat :=
  (((env key).bind parse_u32)).getD default

/-- `env_u64` from `src/config.rs`, same shape as `env_u32`. -/
def env_u64 (env : String → Option String) (key : String) (default : Nat) : Nat :=
  (((env key).bind parse_u64)).getD default

/-- `env_f32` from `src/config.rs`, same shape as `env_u32` with the
external `f32` parser supplied by the world. -/
def env_f32 {F : Type} (parse : String → Option F) (env : String → Option String)
    (key : String) (default : F) : F :=
  (((env key).bind parse)).getD default

/-- `Config::load` from `src/config.rs`, translated clause by clause.
The `dotenvy::dotenv()` call is reflected in `w.env` (the environment
after the best-effort merge); the `?` operator becomes explicit matching
on `Except`. -/
def Config.load {F : Type} (w : World F) (cli : Cli) : Except MabelError (Config F) :=
  match (cli.vault_path).or (w.env "OBSIDIAN_VAULT_PATH") with
  | none => .error (.MissingEnv "OBSIDIAN_VAULT_PATH")
  | some vp =>
    let vault_path := expand_path w.homeDir vp
    if ensure_dir_exists w vault_path then
      if ensure_writable w vault_path then
        let vault_subdir := ((cli.vault_subdir).or (w.env "OBSIDIAN_SUBDIR")).getD "Papers"
        let copy_pdf_into_vault := cli.copy_pdf_into_vault || env_bool w.env "MABEL_COPY_PDF" false
        let cache_dir := expand_path w.homeDir
          (((cli.cache_dir).or (w.env "MABEL_CACHE_DIR")).getD (default_cache_dir w.homeDir))
        if ensure_dir_exists w cache_dir then
          let overwrite_note := cli.overwrite || env_bool w.env "MABEL_OVERWRITE_NOTE" false
          match
            (if cli.ollama then
              match w.parseUrl
                  (((cli.ollama_host).or (w.env "OLLAMA_HOST")).getD "http://localhost:11434") with
              | .error e => .error (MabelError.Url e)
              | .ok host =>
                .ok (LlmBackend.Ollama host
                  (((cli.model).or (w.env "OLLAMA_MODEL")).getD "llama3:8b-instruct")
                  (env_u32 w.env "MABEL_MAX_TOKENS" 800)
                  (env_f32 w.parseF32 w.env "MABEL_TEMPERATURE" w.float02))
            else
              match (cli.openai_key).or (w.env "OPENAI_API_KEY") with
              | none => .error (MabelError.MissingEnv "OPENAI_API_KEY")
              | some api_key =>
                .ok (LlmBackend.OpenAi api_key
                  (((cli.model).or (w.env "OPENAI_MODEL")).getD "gpt-4o-mini")
                  (env_u32 w.env "MABEL_MAX_TOKENS" 800)
                  (env_f32 w.parseF32 w.env "MABEL_TEMPERATURE" w.float02))
             : Except MabelError (LlmBackend F)) with
          | .error e => .error e
          | .ok llm =>
            match
              (match (cli.grobid_url).or (w.env "GROBID_URL") with
              | none => .ok none
              | some s =>
                match w.parseUrl s with
                | .error e => .error (MabelError.Url e)
                | .ok u => .ok (some u)
               : Except MabelError (Option Url)) with
            | .error e => .error e
            | .ok grobid_url =>
              .ok {
                vault_path := vault_path
                vault_subdir := vault_subdir
                copy_pdf_into_vault := copy_pdf_into_vault
                cache_dir := cache_dir
                overwrite_note := overwrite_note
                llm := llm
                grobid_url := grobid_url
                http_timeout := env_u64 w.env "MABEL_HTTP_TIMEOUT_SECS" 20
                http_retries := env_u32 w.env "MABEL_HTTP_RETRIES" 2
                rate_limit_per_min := env_u32 w.env "MABEL_RATE_PER_MIN" 30
                template_path := expand_path w.homeDir
                  ((cli.template).getD "templates/paper_note.md.tera")
                mode :=
                  match cli.mode with
                  | some "study" => Mode.Study
                  | _ => Mode.Concise }
        else .error (.Io cache_dir)
      else .error (.VaultNotWritable vault_path)
    else .error (.Io vault_path)

/-- `Config::vault_notes_dir` from `src/config.rs`. -/
def Config.vault_notes_dir {F : Type} (c : Config F) : String :=
  path_join c.vault_path c.vault_subdir

/-- `Config::cached_pdf_path` from `src/config.rs`:
`self.cache_dir.join("papers").join(format!("{arxiv_id}.pdf"))`. -/
def Config.cached_pdf_path {F : Type} (c : Config F) (arxiv_id : String) : String :=
  path_join (path_join c.cache_dir "papers") (arxiv_id ++ ".pdf")

/-- The model identifier of either backend variant. -/
def LlmBackend.modelOf {F : Type} : LlmBackend F → String
  | .OpenAi _ m _ _ => m
  | .Ollama _ m _ _ => m

/-- The `max_tokens` field of either backend variant. -/
def LlmBackend.maxTokensOf {F : Type} : LlmBackend F → Nat
  | .OpenAi _ _ t _ => t
  | .Ollama _ _ t _ => t

/-- The `temperature` field of either backend variant. -/
def LlmBackend.temperatureOf {F : Type} : LlmBackend F → F
  | .OpenAi _ _ _ t => t
  | .Ollama _ _ _ t => t

/-- The Ollama host URL, when the backend is the Ollama variant. -/
def LlmBackend.hostOf {F : Type} : LlmBackend F → Option Url
  | .OpenAi _ _ _ _ => none
  | .Ollama h _ _ _ => some h

/-- The OpenAI API key, when the backend is the OpenAI variant. -/
def LlmBackend.apiKeyOf {F : Type} : LlmBackend F → Option String
  | .OpenAi k _ _ _ => some k
  | .Ollama _ _ _ _ => none


/-- Success inversion for `Config.load`: every field of a successfully
built configuration is characterised in terms of the CLI input and the
world.  All per-claim theorems below are derived from this lemma. -/
theorem Config.load_ok {F : Type} (w : World F) (cli : Cli) (cfg : Config F)
    (h : Config.load w cli = .ok cfg) :
    (∃ p, (cli.vault_path).or (w.env "OBSIDIAN_VAULT_PATH") = some p ∧
      cfg.vault_path = expand_path w.homeDir p) ∧
    w.dirOk cfg.vault_path = true ∧
    w.writableOk cfg.vault_path = true ∧
    cfg.vault_subdir = ((cli.vault_subdir).or (w.env "OBSIDIAN_SUBDIR")).getD "Papers" ∧
    cfg.copy_pdf_into_vault = (cli.copy_pdf_into_vault || env_bool w.env "MABEL_COPY_PDF" false) ∧
    cfg.cache_dir = expand_path w.homeDir
      (((cli.cache_dir).or (w.env "MABEL_CACHE_DIR")).getD (default_cache_dir w.homeDir)) ∧
    w.dirOk cfg.cache_dir = true ∧
    cfg.overwrite_note = (cli.overwrite || env_bool w.env "MABEL_OVERWRITE_NOTE" false) ∧
    (cli.ollama = true →
      ∃ u, w.parseUrl (((cli.ollama_host).or (w.env "OLLAMA_HOST")).getD
            "http://localhost:11434") = .ok u ∧
        cfg.llm = .Ollama u (((cli.model).or (w.env "OLLAMA_MODEL")).getD "llama3:8b-instruct")
          (env_u32 w.env "MABEL_MAX_TOKENS" 800)
          (env_f32 w.parseF32 w.env "MABEL_TEMPERATURE" w.float02)) ∧
    (cli.ollama = false →
      ∃ k, (cli.openai_key).or (w.env "OPENAI_API_KEY") = some k ∧
        cfg.llm = .OpenAi k (((cli.model).or (w.env "OPENAI_MODEL")).getD "gpt-4o-mini")
          (env_u32 w.env "MABEL_MAX_TOKENS" 800)
          (env_f32 w.parseF32 w.env "MABEL_TEMPERATURE" w.float02)) ∧
    ((cli.grobid_url).or (w.env "GROBID_URL") = none → cfg.grobid_url = none) ∧
    (∀ s, (cli.grobid_url).or (w.env "GROBID_URL") = some s →
      ∃ u, w.parseUrl s = .ok u ∧ cfg.grobid_url = some u) ∧
    cfg.http_timeout = env_u64 w.env "MABEL_HTTP_TIMEOUT_SECS" 20 ∧
    cfg.http_retries = env_u32 w.env "MABEL_HTTP_RETRIES" 2 ∧
    cfg.rate_limit_per_min = env_u32 w.env "MABEL_RATE_PER_MIN" 30 ∧
    cfg.template_path = expand_path w.homeDir
      ((cli.template).getD "templates/paper_note.md.tera") ∧
    cfg.mode = (match cli.mode with | some "study" => Mode.Study | _ => Mode.Concise) := by
  simp only [Config.load] at h
  split at h
  · exact Except.noConfusion h
  next vp hvp =>
    split at h
    case isFalse hdir => exact Except.noConfusion h
    case isTrue hdir =>
      split at h
      case isFalse hw => exact Except.noConfusion h
      case isTrue hw =>
        split at h
        case isFalse hcache => exact Except.noConfusion h
        case isTrue hcache =>
          split at h
          · exact Except.noConfusion h
          next llm hllm =>
            split at h
            · exact Except.noConfusion h
            next gro hgro =>
              injection h with h
              subst h
              refine ⟨⟨vp, hvp, rfl⟩, hdir, hw, rfl, rfl, rfl, hcache, rfl, ?_, ?_, ?_, ?_,
                rfl, rfl, rfl, rfl, rfl⟩
              · intro ho
                rw [ho] at hllm
                simp only [if_true] at hllm
                split at hllm
                · exact Except.noConfusion hllm
                next u hu =>
                  injection hllm with hllm
                  exact ⟨u, hu, hllm.symm⟩
              · intro ho
                rw [ho] at hllm
                simp only [Bool.false_eq_true, if_false] at hllm
                split at hllm
                · exact Except.noConfusion hllm
                next k hk =>
                  injection hllm with hllm
                  exact ⟨k, hk, hllm.symm⟩
              · intro hg
                simp only [hg] at hgro
                injection hgro with hgro
                exact hgro.symm
              · intro s hs
                simp only [hs] at hgro
                split at hgro
                · exact Except.noConfusion hgro
                next u hu =>
                  injection hgro with hgro
                  exact ⟨u, hu, hgro.symm⟩

/-- Error inversion for `Config.load`: the only errors the loader can
produce are the missing-key errors, the two filesystem errors and the URL
parse error, and the OpenAI key error only arises when the Ollama toggle
is off. -/
theorem Config.load_error {F : Type} (w : World F) (cli : Cli) (e : MabelError)
    (h : Config.load w cli = .error e) :
    e = .MissingEnv "OBSIDIAN_VAULT_PATH" ∨
    (∃ p, e = .Io p) ∨
    (∃ p, e = .VaultNotWritable p) ∨
    (cli.ollama = false ∧ e = .MissingEnv "OPENAI_API_KEY") ∨
    (∃ s, e = .Url s) := by
  simp only [Config.load] at h
  split at h
  · injection h with h
    exact Or.inl h.symm
  next vp hvp =>
    split at h
    case isFalse hdir =>
      injection h with h
      exact Or.inr (Or.inl ⟨_, h.symm⟩)
    case isTrue hdir =>
      split at h
      case isFalse hw =>
        injection h with h
        exact Or.inr (Or.inr (Or.inl ⟨_, h.symm⟩))
      case isTrue hw =>
        split at h
        case isFalse hcache =>
          injection h with h
          exact Or.inr (Or.inl ⟨_, h.symm⟩)
        case isTrue hcache =>
          split at h
          next e1 hllm =>
            injection h with h
            subst h
            by_cases ho : cli.ollama
            · rw [ho] at hllm
              simp only [if_true] at hllm
              split at hllm
              next pe hpe =>
                injection hllm with hllm
                exact Or.inr (Or.inr (Or.inr (Or.inr ⟨pe, hllm.symm⟩)))
              next u hu => exact Except.noConfusion hllm
            · rw [Bool.not_eq_true] at ho
              rw [ho] at hllm
              simp only [Bool.false_eq_true, if_false] at hllm
              split at hllm
              next hk =>
                injection hllm with hllm
                exact Or.inr (Or.inr (Or.inr (Or.inl ⟨ho, hllm.symm⟩)))
              next k hk => exact Except.noConfusion hllm
          next llm hllm =>
            split at h
            next e2 hgro =>
              injection h with h
              subst h
              split at hgro
              · exact Except.noConfusion hgro
              next s hs =>
                split at hgro
                next pe hpe =>
                  injection hgro with hgro
                  exact Or.inr (Or.inr (Or.inr (Or.inr ⟨pe, hgro.symm⟩)))
                next u hu => exact Except.noConfusion hgro
            next gro hgro => exact Except.noConfusion h

/-- C2: if the CLI vault path is absent and `OBSIDIAN_VAULT_PATH` is unset,
`Config::load` fails with the missing-key error naming exactly
`OBSIDIAN_VAULT_PATH`, whatever the rest of the CLI input, environment,
filesystem and parsers look like — so this error surfaces before any
backend resolution and is the first error even when other inputs are also
invalid or missing. -/
theorem C2_missing_vault_is_first_error {F : Type} (w : World F) (cli : Cli)
    (h1 : cli.vault_path = none) (h2 : w.env "OBSIDIAN_VAULT_PATH" = none) :
    Config.load w cli = .error (.MissingEnv "OBSIDIAN_VAULT_PATH") := by
  simp [Config.load, h1, h2]

/-- An empty process environment. -/
def envEmpty : String → Option String := fun _ => none

/-- A concrete URL parser used for evaluating the model on test inputs:
it rejects the string used in the spec example of a malformed URL and
accepts everything else verbatim. -/
def parseUrlTest : String → Except String Url := fun s =>
  if s = "not a url" then .error "relative URL without a base" else .ok ⟨s⟩

/-- A concrete world with an empty environment, a known home directory,
and a filesystem where every preflight succeeds. -/
def wTest : World Unit :=
  { env := envEmpty
    homeDir := some "/home/u"
    dirOk := fun _ => true
    writableOk := fun _ => true
    parseUrl := parseUrlTest
    parseF32 := fun _ => none
    float02 := () }

/-- A CLI input with no flags set. -/
def cliEmpty : Cli :=
  { vault_path := none
    vault_subdir := none
    copy_pdf_into_vault := false
    cache_dir := none
    overwrite := false
    ollama := false
    ollama_host := none
    model := none
    openai_key := none
    grobid_url := none
    template := none
    mode := none }

/-- Witness for C2: with nothing set at all (so the OpenAI key is missing
too), the error is the one naming `OBSIDIAN_VAULT_PATH`. -/
theorem C2_missing_vault_is_first_error_witness :
    Config.load wTest cliEmpty = .error (.MissingEnv "OBSIDIAN_VAULT_PATH") :=
  C2_missing_vault_is_first_error wTest cliEmpty rfl rfl

/-- C5: the copy-pdf and overwrite-note flags each resolve to the OR of the
CLI boolean and the truthiness of their environment variable; with neither
set they are false, and a truthy environment value yields true even when
the CLI flag is false. -/
theorem C5_bool_flags_are_or {F : Type} (w : World F) (cli : Cli) (cfg : Config F)
    (h : Config.load w cli = .ok cfg) :
    cfg.copy_pdf_into_vault = (cli.copy_pdf_into_vault || env_bool w.env "MABEL_COPY_PDF" false) ∧
    cfg.overwrite_note = (cli.overwrite || env_bool w.env "MABEL_OVERWRITE_NOTE" false) ∧
    (cli.copy_pdf_into_vault = false → w.env "MABEL_COPY_PDF" = none →
      cfg.copy_pdf_into_vault = false) ∧
    (cli.overwrite = false → w.env "MABEL_OVERWRITE_NOTE" = none →
      cfg.overwrite_note = false) ∧
    (∀ v, cli.copy_pdf_into_vault = false → w.env "MABEL_COPY_PDF" = some v →
      (v = "1" || v = "true" || v = "TRUE" || v = "yes" || v = "on") = true →
      cfg.copy_pdf_into_vault = true) ∧
    (∀ v, cli.overwrite = false → w.env "MABEL_OVERWRITE_NOTE" = some v →
      (v = "1" || v = "true" || v = "TRUE" || v = "yes" || v = "on") = true →
      cfg.overwrite_note = true) := by
  obtain ⟨_, _, _, _, hcopy, _, _, hover, _⟩ := Config.load_ok w cli cfg h
  refine ⟨hcopy, hover, ?_, ?_, ?_, ?_⟩
  · intro hc he
    rw [hcopy, hc, Bool.false_or]
    simp [env_bool, he]
  · intro hc he
    rw [hover, hc, Bool.false_or]
    simp [env_bool, he]
  · intro v hc he htruthy
    rw [hcopy, hc, Bool.false_or]
    simp [env_bool, he, htruthy]
  · intro v hc he htruthy
    rw [hover, hc, Bool.false_or]
    simp [env_bool, he, htruthy]

/-- The environment used in the C5 witness: only the two boolean variables
are set, both to truthy spellings. -/
def envBools : String → Option String := fun k =>
  if k = "MABEL_COPY_PDF" then some "yes"
  else if k = "MABEL_OVERWRITE_NOTE" then some "1"
  else none

/-- The world used in the C5 witness. -/
def wBools : World Unit := { wTest with env := envBools }

/-- The CLI input used in the C5 and C8 witnesses: only the vault path and
the OpenAI key are set (plus, for C8, a mode string). -/
def cliVaultKey : Cli := { cliEmpty with vault_path := some "/v", openai_key := some "sk" }

/-- Witness for C5: CLI flags false but truthy environment spellings give
true for both flags on a successful load. -/
theorem C5_bool_flags_are_or_witness :
    ∃ cfg, Config.load wBools cliVaultKey = .ok cfg ∧
      cfg.copy_pdf_into_vault = true ∧ cfg.overwrite_note = true := by
  obtain ⟨cfg, h⟩ : ∃ cfg, Config.load wBools cliVaultKey = .ok cfg := ⟨_, rfl⟩
  have t := C5_bool_flags_are_or wBools cliVaultKey cfg h
  exact ⟨cfg, h, t.2.2.2.2.1 "yes" rfl rfl (by decide), t.2.2.2.2.2 "1" rfl rfl (by decide)⟩

/-- C8: mode resolution is total and never errors: on every successful
load the mode is Study exactly when the CLI mode string is exactly
"study", and Concise for every other input, including "Study", "STUDY",
the empty string and an absent mode. -/
theorem C8_mode_resolution {F : Type} (w : World F) (cli : Cli) (cfg : Config F)
    (h : Config.load w cli = .ok cfg) :
    cfg.mode = (match cli.mode with | some "study" => Mode.Study | _ => Mode.Concise) ∧
    (cli.mode = some "study" → cfg.mode = .Study) ∧
    (∀ m, cli.mode = some m → m ≠ "study" → cfg.mode = .Concise) ∧
    (cli.mode = none → cfg.mode = .Concise) ∧
    (cli.mode = some "Study" → cfg.mode = .Concise) ∧
    (cli.mode = some "STUDY" → cfg.mode = .Concise) ∧
    (cli.mode = some "" → cfg.mode = .Concise) := by
  obtain ⟨_, _, _, _, _, _, _, _, _, _, _, _, _, _, _, _, hmode⟩ :=
    Config.load_ok w cli cfg h
  refine ⟨hmode, ?_, ?_, ?_, ?_, ?_, ?_⟩
  · intro hm; rw [hmode, hm]; decide
  · intro m hm hne
    rw [hmode, hm]
    split
    next heq => exact absurd (Option.some.inj heq.symm).symm hne
    next => rfl
  · intro hm; rw [hmode, hm]
  · intro hm; rw [hmode, hm]; decide
  · intro hm; rw [hmode, hm]; decide
  · intro hm; rw [hmode, hm]; decide

/-- Witness for C8: a successful load with CLI mode "STUDY" yields the
Concise mode. -/
theorem C8_mode_resolution_witness :
    ∃ cfg, Config.load wTest { cliVaultKey with mode := some "STUDY" } = .ok cfg ∧
      cfg.mode = Mode.Concise := by
  obtain ⟨cfg, h⟩ :
      ∃ cfg, Config.load wTest { cliVaultKey with mode := some "STUDY" } = .ok cfg := ⟨_, rfl⟩
  exact ⟨cfg, h, (C8_mode_resolution wTest _ cfg h).2.2.2.2.2.1 rfl⟩

/-- C1: for every configuration field resolved from both a CLI value and
an environment variable (vault path, vault subdirectory, cache directory,
model identifier, Ollama host, OpenAI API key, GROBID URL), when the CLI
value is set the resolved field is determined by the CLI value alone —
the conclusion does not depend on the environment, so the environment
value is never used even when it is also set. -/
theorem C1_cli_value_wins {F : Type} (w : World F) (cli : Cli) (cfg : Config F)
    (h : Config.load w cli = .ok cfg) :
    (∀ v, cli.vault_path = some v → cfg.vault_path = expand_path w.homeDir v) ∧
    (∀ v, cli.vault_subdir = some v → cfg.vault_subdir = v) ∧
    (∀ v, cli.cache_dir = some v → cfg.cache_dir = expand_path w.homeDir v) ∧
    (∀ v, cli.model = some v → cfg.llm.modelOf = v) ∧
    (∀ v, cli.ollama = true → cli.ollama_host = some v →
      ∃ u, w.parseUrl v = .ok u ∧ cfg.llm.hostOf = some u) ∧
    (∀ v, cli.ollama = false → cli.openai_key = some v → cfg.llm.apiKeyOf = some v) ∧
    (∀ v, cli.grobid_url = some v →
      ∃ u, w.parseUrl v = .ok u ∧ cfg.grobid_url = some u) := by
  obtain ⟨⟨p, hp, hvp⟩, _, _, hsub, _, hcache, _, _, holl, hopen, _, hgro, _⟩ :=
    Config.load_ok w cli cfg h
  refine ⟨?_, ?_, ?_, ?_, ?_, ?_, ?_⟩
  · intro v hv
    rw [hv] at hp
    simp only [Option.or] at hp
    injection hp with hp
    rw [hvp, hp]
  · intro v hv
    rw [hsub, hv]
    simp [Option.or]
  · intro v hv
    rw [hcache, hv]
    simp [Option.or]
  · intro v hv
    by_cases ho : cli.ollama
    · obtain ⟨u, _, hllm⟩ := holl ho
      rw [hllm]
      simp [LlmBackend.modelOf, hv, Option.or]
    · rw [Bool.not_eq_true] at ho
      obtain ⟨k, _, hllm⟩ := hopen ho
      rw [hllm]
      simp [LlmBackend.modelOf, hv, Option.or]
  · intro v ho hv
    obtain ⟨u, hu, hllm⟩ := holl ho
    rw [hv] at hu
    simp only [Option.or, Option.getD] at hu
    exact ⟨u, hu, by rw [hllm]; rfl⟩
  · intro v ho hv
    obtain ⟨k, hk, hllm⟩ := hopen ho
    rw [hv] at hk
    simp only [Option.or] at hk
    injection hk with hk
    rw [hllm, ← hk]
    rfl
  · intro v hv
    apply hgro v
    rw [hv]
    simp [Option.or]

/-- An environment that sets a decoy value for every variable the CLI can
override, used to witness that the CLI value wins. -/
def envDecoys : String → Option String := fun k =>
  if k = "OBSIDIAN_VAULT_PATH" then some "/env/vault"
  else if k = "OBSIDIAN_SUBDIR" then some "EnvPapers"
  else if k = "MABEL_CACHE_DIR" then some "/env/cache"
  else if k = "OPENAI_MODEL" then some "env-model"
  else if k = "OLLAMA_MODEL" then some "env-ollama-model"
  else if k = "OLLAMA_HOST" then some "http://env-host:1"
  else if k = "OPENAI_API_KEY" then some "env-key"
  else if k = "GROBID_URL" then some "http://env-grobid"
  else none

/-- The world used in the C1 witness. -/
def wDecoys : World Unit := { wTest with env := envDecoys }

/-- A CLI input that sets every field that can shadow an environment
variable, with the OpenAI backend selected. -/
def cliFullOpenAi : Cli :=
  { vault_path := some "/cli/vault"
    vault_subdir := some "CliPapers"
    copy_pdf_into_vault := false
    cache_dir := some "/cli/cache"
    overwrite := false
    ollama := false
    ollama_host := none
    model := some "cli-model"
    openai_key := some "cli-key"
    grobid_url := some "http://cli-grobid"
    template := none
    mode := none }

/-- The same CLI input with the Ollama backend selected and a CLI host. -/
def cliFullOllama : Cli :=
  { cliFullOpenAi with ollama := true, ollama_host := some "http://cli-ollama:11434" }

/-- Witness for C1: with every decoy environment value set, the loaded
configuration carries the CLI values, for both backend variants. -/
theorem C1_cli_value_wins_witness :
    (∃ cfg, Config.load wDecoys cliFullOpenAi = .ok cfg ∧
      cfg.vault_path = "/cli/vault" ∧ cfg.vault_subdir = "CliPapers" ∧
      cfg.cache_dir = "/cli/cache" ∧ cfg.llm.modelOf = "cli-model" ∧
      cfg.llm.apiKeyOf = some "cli-key" ∧
      cfg.grobid_url = some ⟨"http://cli-grobid"⟩) ∧
    (∃ cfg, Config.load wDecoys cliFullOllama = .ok cfg ∧
      cfg.llm.hostOf = some ⟨"http://cli-ollama:11434"⟩) := by
  constructor
  · obtain ⟨cfg, h⟩ : ∃ cfg, Config.load wDecoys cliFullOpenAi = .ok cfg := ⟨_, rfl⟩
    have t := C1_cli_value_wins wDecoys cliFullOpenAi cfg h
    refine ⟨cfg, h, (t.1 _ rfl).trans (by decide), t.2.1 _ rfl, (t.2.2.1 _ rfl).trans (by decide),
      t.2.2.2.1 _ rfl, t.2.2.2.2.2.1 _ rfl rfl, ?_⟩
    obtain ⟨u, hu, hg⟩ := t.2.2.2.2.2.2 _ rfl
    have hval : wDecoys.parseUrl "http://cli-grobid" = .ok ⟨"http://cli-grobid"⟩ := rfl
    rw [hval] at hu
    injection hu with hu
    rw [← hu] at hg
    exact hg
  · obtain ⟨cfg, h⟩ : ∃ cfg, Config.load wDecoys cliFullOllama = .ok cfg := ⟨_, rfl⟩
    have t := C1_cli_value_wins wDecoys cliFullOllama cfg h
    obtain ⟨u, hu, hh⟩ := t.2.2.2.2.1 _ rfl rfl
    have hval : wDecoys.parseUrl "http://cli-ollama:11434" = .ok ⟨"http://cli-ollama:11434"⟩ := rfl
    rw [hval] at hu
    injection hu with hu
    rw [← hu] at hh
    exact ⟨cfg, h, hh⟩

/-- The steps of `Config::load` that precede backend selection all
succeed: the vault path resolves and passes both preflights, and the
cache directory passes its preflight. -/
def stages_before_backend_ok {F : Type} (w : World F) (cli : Cli) : Prop :=
  (∃ p, (cli.vault_path).or (w.env "OBSIDIAN_VAULT_PATH") = some p ∧
    ensure_dir_exists w (expand_path w.homeDir p) = true ∧
    ensure_writable w (expand_path w.homeDir p) = true) ∧
  ensure_dir_exists w (expand_path w.homeDir
    (((cli.cache_dir).or (w.env "MABEL_CACHE_DIR")).getD (default_cache_dir w.homeDir))) = true

/-- C3: with the Ollama toggle set, `Config::load` never fails with the
missing-key error for `OPENAI_API_KEY`, and with neither CLI host nor
`OLLAMA_HOST` set the host is parsed from the default
"http://localhost:11434"; with the toggle unset and both key sources
absent, once the earlier stages pass the load fails with the missing-key
error naming exactly `OPENAI_API_KEY`. -/
theorem C3_backend_key_policy {F : Type} (w : World F) (cli : Cli) :
    (cli.ollama = true →
      (∀ e, Config.load w cli = .error e → e ≠ .MissingEnv "OPENAI_API_KEY") ∧
      (cli.ollama_host = none → w.env "OLLAMA_HOST" = none →
        ∀ cfg, Config.load w cli = .ok cfg →
          ∃ u, w.parseUrl "http://localhost:11434" = .ok u ∧ cfg.llm.hostOf = some u)) ∧
    (cli.ollama = false → cli.openai_key = none → w.env "OPENAI_API_KEY" = none →
      stages_before_backend_ok w cli →
      Config.load w cli = .error (.MissingEnv "OPENAI_API_KEY")) := by
  constructor
  · intro ho
    constructor
    · intro e he heq
      rcases Config.load_error w cli e he with h1 | ⟨p, h2⟩ | ⟨p, h3⟩ | ⟨hof, _⟩ | ⟨s, h5⟩
      · rw [heq] at h1
        exact absurd h1 (by decide)
      · rw [heq] at h2
        exact MabelError.noConfusion h2
      · rw [heq] at h3
        exact MabelError.noConfusion h3
      · rw [ho] at hof
        exact Bool.noConfusion hof
      · rw [heq] at h5
        exact MabelError.noConfusion h5
    · intro hh he cfg hcfg
      obtain ⟨_, _, _, _, _, _, _, _, holl, _⟩ := Config.load_ok w cli cfg hcfg
      obtain ⟨u, hu, hllm⟩ := holl ho
      rw [hh, he] at hu
      simp only [Option.or, Option.getD] at hu
      exact ⟨u, hu, by rw [hllm]; rfl⟩
  · intro ho hk1 hk2 hst
    obtain ⟨⟨p, hp, hdir, hwri⟩, hcache⟩ := hst
    simp only [Config.load, hp, hdir, hwri, hcache, ho, hk1, hk2]
    simp [Option.or]

/-- The CLI input used in the C3 witness: only a vault path (OpenAI side),
or a vault path plus the Ollama toggle (Ollama side). -/
def cliVaultOnly : Cli := { cliEmpty with vault_path := some "/v" }

/-- The Ollama-side CLI input used in the C3 witness. -/
def cliVaultOllama : Cli := { cliVaultOnly with ollama := true }

/-- Witness for C3: with only a vault path, the OpenAI side fails naming
`OPENAI_API_KEY`, while the Ollama side succeeds with the localhost
default host. -/
theorem C3_backend_key_policy_witness :
    Config.load wTest cliVaultOnly = .error (.MissingEnv "OPENAI_API_KEY") ∧
    (∃ cfg, Config.load wTest cliVaultOllama = .ok cfg ∧
      cfg.llm.hostOf = some ⟨"http://localhost:11434"⟩) := by
  constructor
  · exact (C3_backend_key_policy wTest cliVaultOnly).2 rfl rfl rfl
      ⟨⟨"/v", rfl, rfl, rfl⟩, rfl⟩
  · obtain ⟨cfg, h⟩ : ∃ cfg, Config.load wTest cliVaultOllama = .ok cfg := ⟨_, rfl⟩
    obtain ⟨u, hu, hh⟩ :=
      ((C3_backend_key_policy wTest cliVaultOllama).1 rfl).2 rfl rfl cfg h
    have hval : wTest.parseUrl "http://localhost:11434" = .ok ⟨"http://localhost:11434"⟩ := rfl
    rw [hval] at hu
    injection hu with hu
    rw [← hu] at hh
    exact ⟨cfg, h, hh⟩

/-- The environment used in the C4 counterexample: the boolean variable is
present with the non-truthy spelling "no". -/
def envC4no : String → Option String := fun k =>
  if k = "MABEL_COPY_PDF" then some "no" else none

/-- C4 (counterexample): the claim says any present non-truthy string
makes `env_bool` return the caller-supplied default; with default `true`
and the value "no" present, `env_bool` returns `false`, not the
default. -/
theorem C4_env_bool_counterexample :
    envC4no "MABEL_COPY_PDF" = some "no" ∧
    ¬ ("no" = "1" ∨ "no" = "true" ∨ "no" = "TRUE" ∨ "no" = "yes" ∨ "no" = "on") ∧
    env_bool envC4no "MABEL_COPY_PDF" true = false := by decide

/-- C4 (amended): `env_bool` returns true exactly for the five truthy
spellings when the variable is present; any other present string yields
`false` regardless of the caller default; an absent variable yields the
caller-supplied default. -/
theorem C4_env_bool_amended (env : String → Option String) (key : String) (default : Bool) :
    (∀ v, env key = some v →
      env_bool env key default =
        (v = "1" || v = "true" || v = "TRUE" || v = "yes" || v = "on")) ∧
    (env key = none → env_bool env key default = default) := by
  constructor
  · intro v hv
    simp [env_bool, hv]
  · intro hv
    simp [env_bool, hv]

/-- The environment used in the C4 witness: the truthy spelling "yes". -/
def envC4yes : String → Option String := fun k =>
  if k = "MABEL_COPY_PDF" then some "yes" else none

/-- Witness for C4 (amended): a present truthy spelling gives true with
default false, and an absent variable gives back the default true. -/
theorem C4_env_bool_amended_witness :
    env_bool envC4yes "MABEL_COPY_PDF" false = true ∧
    env_bool envC4yes "OTHER_KEY" true = true := by
  constructor
  · exact ((C4_env_bool_amended envC4yes "MABEL_COPY_PDF" false).1 "yes" rfl).trans (by decide)
  · exact (C4_env_bool_amended envC4yes "OTHER_KEY" true).2 rfl

/-- C6: the numeric knobs never make `Config::load` fail: each resolves
through its `env_*` helper with the documented defaults (800 tokens, the
0.2 temperature literal, 20 seconds, 2 retries, 30 per minute) and no CLI
override (the helpers read only the environment); the helpers take the
parsed value exactly when the variable is present and parses, and the
default otherwise; and every error the loader can produce is a
missing-key, filesystem or URL error — never a numeric one. -/
theorem C6_numeric_knobs_never_fail {F : Type} (w : World F) (cli : Cli) :
    (∀ cfg, Config.load w cli = .ok cfg →
      cfg.llm.maxTokensOf = env_u32 w.env "MABEL_MAX_TOKENS" 800 ∧
      cfg.llm.temperatureOf = env_f32 w.parseF32 w.env "MABEL_TEMPERATURE" w.float02 ∧
      cfg.http_timeout = env_u64 w.env "MABEL_HTTP_TIMEOUT_SECS" 20 ∧
      cfg.http_retries = env_u32 w.env "MABEL_HTTP_RETRIES" 2 ∧
      cfg.rate_limit_per_min = env_u32 w.env "MABEL_RATE_PER_MIN" 30) ∧
    (∀ key d s n, w.env key = some s → parse_u32 s = some n → env_u32 w.env key d = n) ∧
    (∀ key d s n, w.env key = some s → parse_u64 s = some n → env_u64 w.env key d = n) ∧
    (∀ key d, w.env key = none → env_u32 w.env key d = d) ∧
    (∀ key d s, w.env key = some s → parse_u32 s = none → env_u32 w.env key d = d) ∧
    (∀ key d, w.env key = none → env_u64 w.env key d = d) ∧
    (∀ key d s, w.env key = some s → parse_u64 s = none → env_u64 w.env key d = d) ∧
    (∀ key d, w.env key = none → env_f32 w.parseF32 w.env key d = d) ∧
    (∀ key d s, w.env key = some s → w.parseF32 s = none →
      env_f32 w.parseF32 w.env key d = d) ∧
    (∀ e, Config.load w cli = .error e →
      (∃ k, e = .MissingEnv k) ∨ (∃ p, e = .Io p) ∨
      (∃ p, e = .VaultNotWritable p) ∨ (∃ s, e = .Url s)) := by
  refine ⟨?_, ?_, ?_, ?_, ?_, ?_, ?_, ?_, ?_, ?_⟩
  · intro cfg h
    obtain ⟨_, _, _, _, _, _, _, _, holl, hopen, _, _, ht, hr, hrate, _, _⟩ :=
      Config.load_ok w cli cfg h
    by_cases ho : cli.ollama
    · obtain ⟨u, _, hllm⟩ := holl ho
      exact ⟨by rw [hllm]; rfl, by rw [hllm]; rfl, ht, hr, hrate⟩
    · rw [Bool.not_eq_true] at ho
      obtain ⟨k, _, hllm⟩ := hopen ho
      exact ⟨by rw [hllm]; rfl, by rw [hllm]; rfl, ht, hr, hrate⟩
  · intro key d s n hs hn
    simp [env_u32, hs, hn]
  · intro key d s n hs hn
    simp [env_u64, hs, hn]
  · intro key d hk
    simp [env_u32, hk]
  · intro key d s hs hn
    simp [env_u32, hs, hn]
  · intro key d hk
    simp [env_u64, hk]
  · intro key d s hs hn
    simp [env_u64, hs, hn]
  · intro key d hk
    simp [env_f32, hk]
  · intro key d s hs hn
    simp [env_f32, hs, hn]
  · intro e he
    rcases Config.load_error w cli e he with h | h | h | ⟨_, h⟩ | h
    · exact Or.inl ⟨_, h⟩
    · exact Or.inr (Or.inl h)
    · exact Or.inr (Or.inr (Or.inl h))
    · exact Or.inl ⟨_, h⟩
    · exact Or.inr (Or.inr (Or.inr h))

/-- The environment used in the C6 witness: one numeric variable that
parses, one that does not, the rest absent. -/
def envNums : String → Option String := fun k =>
  if k = "MABEL_MAX_TOKENS" then some "1000"
  else if k = "MABEL_HTTP_RETRIES" then some "not-a-number"
  else none

/-- The world used in the C6 witness. -/
def wNums : World Unit := { wTest with env := envNums }

/-- Witness for C6: a parsable numeric variable is taken, an unparsable
one and absent ones fall back to their defaults, and the load still
succeeds. -/
theorem C6_numeric_knobs_never_fail_witness :
    ∃ cfg, Config.load wNums cliVaultKey = .ok cfg ∧
      cfg.llm.maxTokensOf = 1000 ∧ cfg.http_retries = 2 ∧
      cfg.http_timeout = 20 ∧ cfg.rate_limit_per_min = 30 := by
  obtain ⟨cfg, h⟩ : ∃ cfg, Config.load wNums cliVaultKey = .ok cfg := ⟨_, rfl⟩
  obtain ⟨hmax, _, htime, hret, hrate⟩ :=
    (C6_numeric_knobs_never_fail wNums cliVaultKey).1 cfg h
  exact ⟨cfg, h, hmax.trans (by decide), hret.trans (by decide),
    htime.trans (by decide), hrate.trans (by decide)⟩

/-- C7: the extraction URL is optional: when neither the CLI nor the
environment supplies one, a successful load carries no GROBID URL; when
one is supplied but does not parse, the load fails with the URL-parse
error once the earlier stages and the backend step succeed. -/
theorem C7_grobid_optional {F : Type} (w : World F) (cli : Cli) :
    (∀ cfg, Config.load w cli = .ok cfg →
      (cli.grobid_url).or (w.env "GROBID_URL") = none → cfg.grobid_url = none) ∧
    (∀ s e, (cli.grobid_url).or (w.env "GROBID_URL") = some s →
      w.parseUrl s = .error e →
      stages_before_backend_ok w cli →
      (cli.ollama = true →
        ∃ u, w.parseUrl (((cli.ollama_host).or (w.env "OLLAMA_HOST")).getD
          "http://localhost:11434") = .ok u) →
      (cli.ollama = false → ∃ k, (cli.openai_key).or (w.env "OPENAI_API_KEY") = some k) →
      Config.load w cli = .error (.Url e)) := by
  constructor
  · intro cfg h hg
    obtain ⟨_, _, _, _, _, _, _, _, _, _, hnone, _⟩ := Config.load_ok w cli cfg h
    exact hnone hg
  · intro s e hs hparse hst hbO hbA
    obtain ⟨⟨p, hp, hdir, hwri⟩, hcache⟩ := hst
    by_cases ho : cli.ollama
    · obtain ⟨u, hu⟩ := hbO ho
      simp only [Config.load, hp, hdir, hwri, hcache, ho, hu, hs, hparse]
      simp
    · rw [Bool.not_eq_true] at ho
      obtain ⟨k, hk⟩ := hbA ho
      simp only [Config.load, hp, hdir, hwri, hcache, ho, hk, hs, hparse]
      simp

/-- The CLI input used in the C7 witness's failing half: a malformed
GROBID URL on top of a loadable configuration. -/
def cliBadGrobid : Cli := { cliVaultKey with grobid_url := some "not a url" }

/-- Witness for C7: with no GROBID source the load succeeds with no
extraction URL; with the malformed "not a url" it fails with the
URL-parse error. -/
theorem C7_grobid_optional_witness :
    (∃ cfg, Config.load wTest cliVaultKey = .ok cfg ∧ cfg.grobid_url = none) ∧
    Config.load wTest cliBadGrobid = .error (.Url "relative URL without a base") := by
  constructor
  · obtain ⟨cfg, h⟩ : ∃ cfg, Config.load wTest cliVaultKey = .ok cfg := ⟨_, rfl⟩
    exact ⟨cfg, h, (C7_grobid_optional wTest cliVaultKey).1 cfg h rfl⟩
  · exact (C7_grobid_optional wTest cliBadGrobid).2 "not a url" _ rfl rfl
      ⟨⟨"/v", rfl, rfl, rfl⟩, rfl⟩
      (fun hcontr => absurd hcontr (by decide))
      (fun _ => ⟨"sk", rfl⟩)

/-- The CLI input exhibiting the C9 failure: a relative vault path and a
relative cache directory, everything else minimal. -/
def cliRelative : Cli :=
  { cliEmpty with
    vault_path := some "relative/dir", cache_dir := some "relcache", openai_key := some "sk" }

/-- C9: the code violates the claim: `expand_path` only rewrites a
leading tilde, so `Config::load` accepts a relative vault path and a
relative cache directory unchanged (the filesystem preflights create them
under the current working directory and succeed), and the resulting
configuration fields are not absolute — contradicting the field
documentation "absolute, validated" in `src/config.rs`. -/
theorem C9_relative_paths_accepted :
    ∃ cfg, Config.load wTest cliRelative = .ok cfg ∧
      cfg.vault_path = "relative/dir" ∧ path_is_absolute cfg.vault_path = false ∧
      cfg.cache_dir = "relcache" ∧ path_is_absolute cfg.cache_dir = false := by
  refine ⟨_, rfl, ?_, ?_, ?_, ?_⟩ <;> decide

/-- A concrete configuration whose cache directory is the default
"/home/u/.mabel", used in the C10 instance. -/
def cfgHome : Config Unit :=
  { vault_path := "/home/u/vault"
    vault_subdir := "Papers"
    copy_pdf_into_vault := false
    cache_dir := "/home/u/.mabel"
    overwrite_note := false
    llm := .OpenAi "sk" "gpt-4o-mini" 800 ()
    grobid_url := none
    http_timeout := 20
    http_retries := 2
    rate_limit_per_min := 30
    template_path := "templates/paper_note.md.tera"
    mode := .Concise }

/-- C10: `cached_pdf_path` joins the cache directory with the fixed
"papers" component and then with the ".pdf" file name derived from the
arXiv identifier; the default cache directory is the home directory
joined with ".mabel" (or "./.mabel" when no home directory is known);
concretely, with the default cache directory the cached PDF for
"2501.12345" lives inside the "papers" subdirectory and not directly in
the cache directory.  The embedded `cached_pdf_path` is a pure function
of the configuration (the Rust method takes `&self`), so the
configuration is left unchanged by the call. -/
theorem C10_cached_pdf_path_shape :
    (∀ (F : Type) (cfg : Config F) (a : String),
      cfg.cached_pdf_path a =
        path_join (path_join cfg.cache_dir "papers") (a ++ ".pdf")) ∧
    (∀ home : String, default_cache_dir (some home) = path_join home ".mabel") ∧
    default_cache_dir none = path_join "." ".mabel" ∧
    cfgHome.cached_pdf_path "2501.12345" = "/home/u/.mabel/papers/2501.12345.pdf" ∧
    cfgHome.cached_pdf_path "2501.12345" ≠ path_join cfgHome.cache_dir "2501.12345.pdf" := by
  refine ⟨fun F cfg a => rfl, fun home => rfl, rfl, by decide, by decide⟩

end Mabel
